import Mathlib

/-!
# bakkesmod-linux injector: process locator and remote injector

A shallow embedding of `src/cpp/main.cpp`.  The Win32 calls the program makes
are answered by a scripted operating-system layer (`World`); every call is
appended to a trace of `Event`s together with its arguments and its answer, so
that ordering and acquire/release properties can be stated on the trace.
-/

namespace Injector

/-! ## Machine types and header constants -/

abbrev DWORD := Nat
abbrev HANDLE := Nat
abbrev LPVOID := Nat
abbrev BYTE := Nat
abbrev wchar_t := Nat

/-- The enumeration `exit_code` of main.cpp, lines 12-17. -/
inductive exit_code where
  | EXIT_OK
  | ERR_DLL_NOT_FOUND
  | ERR_PROCESS_NOT_FOUND
  | ERR_INJECT_FAILED
  deriving DecidableEq, Repr

/-- The integer value of each enumerator, as written in the enumeration. -/
def exit_code.toInt : exit_code → Int
  | .EXIT_OK => 0
  | .ERR_DLL_NOT_FOUND => 1
  | .ERR_PROCESS_NOT_FOUND => 2
  | .ERR_INJECT_FAILED => 3

/-- Value of `INVALID_HANDLE_VALUE` from the Windows headers, `(HANDLE)(LONG_PTR)-1`
on the 64-bit target. -/
def INVALID_HANDLE_VALUE : HANDLE := 2 ^ 64 - 1

/-- Value of `TH32CS_SNAPPROCESS` from tlhelp32.h. -/
def TH32CS_SNAPPROCESS : DWORD := 0x2
/-- Value of `PROCESS_CREATE_THREAD` from the Windows headers. -/
def PROCESS_CREATE_THREAD : DWORD := 0x0002
/-- Value of `PROCESS_VM_OPERATION` from the Windows headers. -/
def PROCESS_VM_OPERATION : DWORD := 0x0008
/-- Value of `PROCESS_VM_READ` from the Windows headers. -/
def PROCESS_VM_READ : DWORD := 0x0010
/-- Value of `PROCESS_VM_WRITE` from the Windows headers. -/
def PROCESS_VM_WRITE : DWORD := 0x0020
/-- Value of `MEM_COMMIT` from the Windows headers. -/
def MEM_COMMIT : DWORD := 0x1000
/-- Value of `MEM_RESERVE` from the Windows headers. -/
def MEM_RESERVE : DWORD := 0x2000
/-- Value of `MEM_RELEASE` from the Windows headers. -/
def MEM_RELEASE : DWORD := 0x8000
/-- Value of `PAGE_READWRITE` from the Windows headers. -/
def PAGE_READWRITE : DWORD := 0x04
/-- Value of `INFINITE` from the Windows headers. -/
def INFINITE : DWORD := 0xFFFFFFFF
/-- Value of `MB_OK` from the Windows headers. -/
def MB_OK : DWORD := 0x0
/-- Value of `MB_ICONERROR` from the Windows headers. -/
def MB_ICONERROR : DWORD := 0x10
/-- Value of `S_OK` from the Windows headers. -/
def S_OK : Int := 0
/-- Size in bytes of `wchar_t` on the Windows target (a UTF-16 code unit). -/
def sizeof_wchar_t : Nat := 2
/-- Number of values of `size_t` on the 64-bit target. -/
def SIZE_MOD : Nat := 2 ^ 64

/-- The bytes of a narrow string literal of ASCII characters (without its terminator). -/
def c_literal (s : String) : List BYTE := s.toList.map Char.toNat

/-- The wide characters of a wide string literal (without its terminator). -/
def w_literal (s : String) : List wchar_t := s.toList.map Char.toNat

/-! ## The process table -/

/-- The two fields of `PROCESSENTRY32` that the program reads.  `szExeFile` is
the character buffer; the name it holds ends at the first NUL (or at the end
of the buffer). -/
structure PROCESSENTRY32 where
  th32ProcessID : DWORD
  szExeFile : List BYTE
  deriving DecidableEq, Repr

/-- The C string held in a character buffer: the bytes before the first NUL. -/
def cstr (buf : List BYTE) : List BYTE := buf.takeWhile (fun c => c != 0)

/-- The C library `strcmp` on two character buffers: the first position at which
the strings differ decides; the end of a buffer reads as the terminator. -/
def strcmp : List BYTE → List BYTE → Int
  | [], [] => 0
  | [], b :: _ => (0 : Int) - (b : Int)
  | a :: _, [] => (a : Int) - 0
  | a :: as, b :: bs =>
    if a ≠ b then (a : Int) - (b : Int)
    else if a = 0 then 0
    else strcmp as bs

/-- Outcome of a `WriteProcessMemory` call in the scripted OS: the whole range
was copied, only the first `written` bytes were copied, or nothing was. -/
inductive WriteResult where
  | complete
  | short (written : Nat)
  | error
  deriving DecidableEq, Repr

/-- The `BOOL` that `WriteProcessMemory` hands back: non-zero only when the entire
range was written (the Win32 contract; the program passes NULL for the
byte count and so relies on it). -/
def WriteResult.toBOOL : WriteResult → Bool
  | .complete => true
  | .short _ => false
  | .error => false

/-- One call made to the operating system or the C++ runtime, with its
arguments and, where the program looks at it, its answer. -/
inductive Event where
  | SHGetKnownFolderPath (hr : Int) (path : Option (List wchar_t))
  | CoTaskMemFree (path : List wchar_t)
  | fs_exists (path : List wchar_t) (ret : Option Bool)
  | MessageBoxA (message : String) (title : String) (type : DWORD)
  | CreateToolhelp32Snapshot (flags : DWORD) (pid : DWORD) (ret : HANDLE)
  | Process32First (snapshot : HANDLE) (ret : Option PROCESSENTRY32)
  | Process32Next (snapshot : HANDLE) (ret : Option PROCESSENTRY32)
  | CloseHandle (h : HANDLE)
  | OpenProcess (access : DWORD) (inherit : Bool) (pid : DWORD) (ret : HANDLE)
  | GetModuleHandleW (name : List wchar_t) (ret : Nat)
  | GetProcAddress (hmodule : Nat) (name : List BYTE) (ret : LPVOID)
  | VirtualAllocEx (process : HANDLE) (addr : LPVOID) (size : Nat) (type : DWORD)
      (protect : DWORD) (ret : LPVOID)
  | WriteProcessMemory (process : HANDLE) (base : LPVOID) (buffer : List BYTE) (size : Nat)
      (ret : WriteResult)
  | VirtualFreeEx (process : HANDLE) (addr : LPVOID) (size : Nat) (type : DWORD)
  | CreateRemoteThread (process : HANDLE) (start : LPVOID) (param : LPVOID) (flags : DWORD)
      (ret : HANDLE)
  | WaitForSingleObject (h : HANDLE) (ms : DWORD)
  | GetExitCodeThread (h : HANDLE) (ret : Option DWORD)
  deriving DecidableEq, Repr

/-- The scripted operating system: what each call answers.  `processes` is the
enumeration a valid snapshot yields, in enumeration order; `GetExitCodeThread`
answers `none` when the call fails and leaves the caller's variable alone;
`fs_exists` answers `none` when `std::filesystem::exists` throws;
`path_append` is `operator/` of `std::filesystem::path`; `memory` is the
content of the buffer that stands for the target's address space. -/
structure World where
  SHGetKnownFolderPath : Int × Option (List wchar_t)
  path_append : List wchar_t → List BYTE → List wchar_t
  fs_exists : List wchar_t → Option Bool
  CreateToolhelp32Snapshot : DWORD → DWORD → HANDLE
  processes : List PROCESSENTRY32
  OpenProcess : DWORD → Bool → DWORD → HANDLE
  GetModuleHandleW : List wchar_t → Nat
  GetProcAddress : Nat → List BYTE → LPVOID
  VirtualAllocEx : HANDLE → LPVOID → Nat → DWORD → DWORD → LPVOID
  WriteProcessMemory : HANDLE → LPVOID → List BYTE → Nat → WriteResult
  CreateRemoteThread : HANDLE → LPVOID → LPVOID → DWORD → HANDLE
  GetExitCodeThread : HANDLE → Option DWORD
  memory : LPVOID → BYTE

/-! ## Process Locator (main.cpp, lines 23-47) -/

/-- The `do ... while (Process32Next(snapshot, &entry))` loop of
`find_process_id`, entered with `entry` holding the current entry and `rest`
the entries the snapshot has not yet yielded.  Returns the function's result
and the calls made from here to the return. -/
def find_process_id_loop (process_name : List BYTE) (snapshot : HANDLE) :
    PROCESSENTRY32 → List PROCESSENTRY32 → DWORD × List Event
  | entry, rest =>
    if strcmp process_name entry.szExeFile = 0 then
      (entry.th32ProcessID, [Event.CloseHandle snapshot])
    else
      match rest with
      | [] => (0, [Event.Process32Next snapshot none, Event.CloseHandle snapshot])
      | next :: rest' =>
        let r := find_process_id_loop process_name snapshot next rest'
        (r.1, Event.Process32Next snapshot (some next) :: r.2)

/-- The function `find_process_id`: its result and the calls it made. -/
def find_process_id (w : World) (process_name : List BYTE) : DWORD × List Event :=
  let snapshot := w.CreateToolhelp32Snapshot TH32CS_SNAPPROCESS 0
  let t0 := [Event.CreateToolhelp32Snapshot TH32CS_SNAPPROCESS 0 snapshot]
  if snapshot = INVALID_HANDLE_VALUE then
    (0, t0)
  else
    match w.processes with
    | [] => (0, t0 ++ [Event.Process32First snapshot none, Event.CloseHandle snapshot])
    | entry :: rest =>
      let r := find_process_id_loop process_name snapshot entry rest
      (r.1, t0 ++ Event.Process32First snapshot (some entry) :: r.2)

/-! ## Remote Injector (main.cpp, lines 65-137) -/

/-- What a function of the program leaves behind: its return value, the calls
it made in program order, and the content of the target's memory. -/
structure Run (α : Type) where
  ret : α
  trace : List Event
  memory : LPVOID → BYTE

/-- The little-endian bytes of one wide character. -/
def wchar_bytes (c : wchar_t) : List BYTE := [c % 256, c / 256 % 256]

/-- The bytes of an array of wide characters, in memory order. -/
def wide_bytes : List wchar_t → List BYTE
  | [] => []
  | c :: cs => wchar_bytes c ++ wide_bytes cs

/-- The array `std::wstring::c_str()` points to: the characters of the string
followed by one null wide character. -/
def c_str (s : List wchar_t) : List wchar_t := s ++ [0]

/-- Memory after the bytes `bytes` have been stored from address `base` on. -/
def mem_write (m : LPVOID → BYTE) (base : LPVOID) (bytes : List BYTE) : LPVOID → BYTE :=
  fun a => if base ≤ a ∧ a < base + bytes.length then bytes.getD (a - base) 0 else m a

/-- The `n` bytes of memory from address `base` on. -/
def mem_read (m : LPVOID → BYTE) (base : LPVOID) (n : Nat) : List BYTE :=
  (List.range n).map (fun i => m (base + i))

/-- Effect of a `WriteProcessMemory` call on the target's memory. -/
def WriteResult.apply (r : WriteResult) (m : LPVOID → BYTE) (base : LPVOID)
    (bytes : List BYTE) : LPVOID → BYTE :=
  match r with
  | .complete => mem_write m base bytes
  | .short written => mem_write m base (bytes.take written)
  | .error => m

/-- The function `show_msgbox` (lines 19-21). -/
def show_msgbox (title : String) (message : String) : List Event :=
  [Event.MessageBoxA message title (MB_OK ||| MB_ICONERROR)]

/-- The access mask computed on line 73. -/
def open_flags : DWORD :=
  PROCESS_CREATE_THREAD ||| PROCESS_VM_OPERATION ||| PROCESS_VM_WRITE ||| PROCESS_VM_READ

/-- The function `inject_dll`.  `dll_path` is the content of the `std::wstring`.
`WaitForSingleObject(thread, INFINITE)` is taken to come back: the run
described is one in which the remote thread finishes. -/
def inject_dll (w : World) (dll_path : List wchar_t) : Run exit_code :=
  let located := find_process_id w (c_literal "RocketLeague.exe")
  let pid := located.1
  let t0 := located.2
  if pid = 0 then
    ⟨.ERR_PROCESS_NOT_FOUND, t0 ++ show_msgbox "error" "rocket League process not found.", w.memory⟩
  else
    let flags := open_flags
    let process := w.OpenProcess flags false pid
    let t1 := t0 ++ [Event.OpenProcess flags false pid process]
    if process = 0 then
      ⟨.ERR_PROCESS_NOT_FOUND,
        t1 ++ show_msgbox "error" "failed to open rocket league process.", w.memory⟩
    else
      let kernel32 := w.GetModuleHandleW (w_literal "kernel32.dll")
      let load_library_addr := w.GetProcAddress kernel32 (c_literal "LoadLibraryW")
      let t2 := t1 ++ [Event.GetModuleHandleW (w_literal "kernel32.dll") kernel32,
        Event.GetProcAddress kernel32 (c_literal "LoadLibraryW") load_library_addr]
      if load_library_addr = 0 then
        ⟨.ERR_INJECT_FAILED, t2 ++ [Event.CloseHandle process], w.memory⟩
      else
        let path_size := ((dll_path.length + 1) * sizeof_wchar_t) % SIZE_MOD
        let remote_memory :=
          w.VirtualAllocEx process 0 path_size (MEM_COMMIT ||| MEM_RESERVE) PAGE_READWRITE
        let t3 := t2 ++ [Event.VirtualAllocEx process 0 path_size (MEM_COMMIT ||| MEM_RESERVE)
          PAGE_READWRITE remote_memory]
        if remote_memory = 0 then
          ⟨.ERR_INJECT_FAILED, t3 ++ [Event.CloseHandle process], w.memory⟩
        else
          let source := (wide_bytes (c_str dll_path)).take path_size
          let written := w.WriteProcessMemory process remote_memory source path_size
          let t4 := t3 ++ [Event.WriteProcessMemory process remote_memory source path_size written]
          let m4 := written.apply w.memory remote_memory source
          if written.toBOOL = false then
            ⟨.ERR_INJECT_FAILED,
              t4 ++ [Event.VirtualFreeEx process remote_memory 0 MEM_RELEASE,
                Event.CloseHandle process], m4⟩
          else
            let thread := w.CreateRemoteThread process load_library_addr remote_memory 0
            let t5 := t4 ++ [Event.CreateRemoteThread process load_library_addr remote_memory 0
              thread]
            if thread = 0 then
              ⟨.ERR_INJECT_FAILED,
                t5 ++ [Event.VirtualFreeEx process remote_memory 0 MEM_RELEASE,
                  Event.CloseHandle process], m4⟩
            else
              let got := w.GetExitCodeThread thread
              let exit_status : DWORD := got.getD 0
              let t6 := t5 ++ [Event.WaitForSingleObject thread INFINITE,
                Event.GetExitCodeThread thread got,
                Event.VirtualFreeEx process remote_memory 0 MEM_RELEASE,
                Event.CloseHandle thread,
                Event.CloseHandle process]
              ⟨if exit_status ≠ 0 then .EXIT_OK else .ERR_INJECT_FAILED, t6, m4⟩

/-! ## Entry point (main.cpp, lines 49-63 and 139-148) -/

/-- The function `get_app_data`: the roaming application-data folder, or the
empty path when the shell call fails. -/
def get_app_data (w : World) : List wchar_t × List Event :=
  let result := w.SHGetKnownFolderPath.1
  let t0 := [Event.SHGetKnownFolderPath result w.SHGetKnownFolderPath.2]
  match w.SHGetKnownFolderPath.2 with
  | none => ([], t0)
  | some path =>
    if result ≠ S_OK then ([], t0 ++ [Event.CoTaskMemFree path])
    else (path, t0 ++ [Event.CoTaskMemFree path])

/-- The path `get_app_data() / "bakkesmod/bakkesmod/dll/bakkesmod.dll"` computed on
line 140. -/
def payload_path (w : World) : List wchar_t :=
  w.path_append (get_app_data w).1 (c_literal "bakkesmod/bakkesmod/dll/bakkesmod.dll")

/-- The function `main`.  The return value is the exit code of the process, or
`none` when `std::filesystem::exists` throws and the process is terminated. -/
def main (w : World) : Run (Option Int) :=
  let app := get_app_data w
  let dll_path := payload_path w
  let t0 := app.2 ++ [Event.fs_exists dll_path (w.fs_exists dll_path)]
  match w.fs_exists dll_path with
  | none => ⟨none, t0, w.memory⟩
  | some false =>
    ⟨some exit_code.ERR_DLL_NOT_FOUND.toInt,
      t0 ++ show_msgbox "DLL nt found" "could not find bakkesmod.dll...", w.memory⟩
  | some true =>
    let r := inject_dll w dll_path
    ⟨some r.ret.toInt, t0 ++ r.trace, r.memory⟩

/-! ## Reading a trace -/

/-- An operating-system resource the program can hold: a handle (snapshot,
process or thread) or a region of memory inside a process. -/
inductive Resource where
  | handle (h : HANDLE)
  | region (process : HANDLE) (addr : LPVOID)
  deriving DecidableEq, Repr

/-- The resource a call hands to the program, when it succeeded in acquiring one.
The string handed out by `SHGetKnownFolderPath` is not tracked here: it is
freed inside `get_app_data` and `inject_dll` never sees it. -/
def Event.acquires : Event → Option Resource
  | .CreateToolhelp32Snapshot _ _ ret =>
    if ret = INVALID_HANDLE_VALUE then none else some (.handle ret)
  | .OpenProcess _ _ _ ret => if ret = 0 then none else some (.handle ret)
  | .VirtualAllocEx process _ _ _ _ ret => if ret = 0 then none else some (.region process ret)
  | .CreateRemoteThread _ _ _ _ ret => if ret = 0 then none else some (.handle ret)
  | _ => none

/-- The resource a call gives back.  `VirtualFreeEx` releases a region only when
called with size 0 and `MEM_RELEASE`. -/
def Event.releases : Event → Option Resource
  | .CloseHandle h => some (.handle h)
  | .VirtualFreeEx process addr size type =>
    if size = 0 ∧ type = MEM_RELEASE then some (.region process addr) else none
  | _ => none

/-- The resources acquired along a trace, in order of acquisition. -/
def acquired (t : List Event) : List Resource := t.filterMap Event.acquires

/-- The resources released along a trace, in order of release. -/
def released (t : List Event) : List Resource := t.filterMap Event.releases

/-- Book-keeping of a counting mock: runs through the trace with the resources
currently held.  An acquisition adds the resource, a release removes one
holding of it, and a release of something not held makes the run invalid
(`none`).  The answer is what is still held at the end. -/
def ledger : List Event → List Resource → Option (List Resource)
  | [], held => some held
  | e :: es, held =>
    match e.releases with
    | some r => if r ∈ held then ledger es (held.erase r) else none
    | none =>
      match e.acquires with
      | some r => ledger es (r :: held)
      | none => ledger es held

/-- The calls of the snapshot enumeration. -/
def Event.enumerates : Event → Bool
  | .Process32First _ _ => true
  | .Process32Next _ _ => true
  | _ => false

/-- The stage of the injection sequence a call belongs to (1 Open, 2 Resolve
loader, 3 Allocate, 4 Write, 5 Execute, 6 Await); `none` for the locator,
the notification and the release calls. -/
def Event.stage : Event → Option Nat
  | .OpenProcess _ _ _ _ => some 1
  | .GetModuleHandleW _ _ => some 2
  | .GetProcAddress _ _ _ => some 2
  | .VirtualAllocEx _ _ _ _ _ _ => some 3
  | .WriteProcessMemory _ _ _ _ _ => some 4
  | .CreateRemoteThread _ _ _ _ _ => some 5
  | .WaitForSingleObject _ _ => some 6
  | .GetExitCodeThread _ _ => some 6
  | _ => none

/-- Whether a call is a stage operation that reported failure: a null handle or
address, or a write that did not copy the whole range. -/
def Event.failed : Event → Bool
  | .OpenProcess _ _ _ ret => ret = 0
  | .GetProcAddress _ _ ret => ret = 0
  | .VirtualAllocEx _ _ _ _ _ ret => ret = 0
  | .WriteProcessMemory _ _ _ _ ret => !ret.toBOOL
  | .CreateRemoteThread _ _ _ _ ret => ret = 0
  | _ => false

/-- Whether a call is a cross-process write. -/
def Event.isWrite : Event → Bool
  | .WriteProcessMemory _ _ _ _ _ => true
  | _ => false

/-- Whether a call belongs to the locator's snapshot handling. -/
def Event.locates : Event → Bool
  | .CreateToolhelp32Snapshot _ _ _ => true
  | .Process32First _ _ => true
  | .Process32Next _ _ => true
  | _ => false

/-- The calls `inject_dll` makes after `find_process_id` has returned. -/
def injector_trace (w : World) (dll_path : List wchar_t) : List Event :=
  (inject_dll w dll_path).trace.drop (find_process_id w (c_literal "RocketLeague.exe")).2.length

/-- A property `R pre e post` holds at every position of a trace, where `pre`
are the calls before the position (after those in `acc`), `e` the call at
it and `post` the calls after it. -/
def AllSplits (R : List Event → Event → List Event → Prop) : List Event → List Event → Prop
  | _, [] => True
  | acc, e :: post => R acc e post ∧ AllSplits R (acc ++ [e]) post

/-- What must hold around a `CreateRemoteThread` call at a position of a trace:
before it, a complete write into the thread's argument, the resolution of
`LoadLibraryW` to the thread's start routine and the allocation that
returned the thread's argument; after it, no write. -/
def WriteBeforeThread (pre : List Event) (e : Event) (post : List Event) : Prop :=
  ∀ process start param flags thread,
    e = Event.CreateRemoteThread process start param flags thread →
    (∃ bytes size, Event.WriteProcessMemory process param bytes size .complete ∈ pre) ∧
      (∃ hmodule, Event.GetProcAddress hmodule (c_literal "LoadLibraryW") start ∈ pre) ∧
      (∃ addr size type protect,
        Event.VirtualAllocEx process addr size type protect param ∈ pre) ∧
      (∀ x ∈ post, x.isWrite = false)

/-! ## A scripted operating system for concrete runs -/

/-- A scripted operating system whose every call gives the same answer whatever
its arguments: the snapshot handle is 7 and yields `processes`, the shell
folder is `C:`, paths are joined with a backslash, and the remaining
answers are the parameters. -/
def mock (processes : List PROCESSENTRY32) (present : Option Bool) (process : HANDLE)
    (loader : LPVOID) (buffer : LPVOID) (wr : WriteResult) (thread : HANDLE)
    (got : Option DWORD) : World where
  SHGetKnownFolderPath := (0, some [67, 58])
  path_append := fun a b => a ++ [92] ++ b
  fs_exists := fun _ => present
  CreateToolhelp32Snapshot := fun _ _ => 7
  processes := processes
  OpenProcess := fun _ _ _ => process
  GetModuleHandleW := fun _ => 1000
  GetProcAddress := fun _ _ => loader
  VirtualAllocEx := fun _ _ _ _ _ => buffer
  WriteProcessMemory := fun _ _ _ _ => wr
  CreateRemoteThread := fun _ _ _ _ => thread
  GetExitCodeThread := fun _ => got
  memory := fun _ => 0

/-- A process table with two processes named `RocketLeague.exe`, the second of
them in a buffer with bytes after the terminator. -/
def two_games : List PROCESSENTRY32 :=
  [⟨4, c_literal "System"⟩, ⟨100, c_literal "RocketLeague.exe"⟩,
    ⟨200, c_literal "RocketLeague.exe" ++ [0, 65]⟩]

/-- A process table without the game. -/
def no_game : List PROCESSENTRY32 :=
  [⟨4, c_literal "System"⟩, ⟨300, c_literal "rocketleague.exe"⟩]

/-! ## Facts about the locator -/

theorem strcmp_eq_zero_iff (a b : List BYTE) : strcmp a b = 0 ↔ cstr a = cstr b := by
  induction a generalizing b with
  | nil =>
    cases b with
    | nil => simp [strcmp, cstr]
    | cons y ys =>
      by_cases hy : y = 0
      · simp [strcmp, cstr, hy]
      · simp [strcmp, cstr, hy, List.takeWhile_cons]
  | cons x xs ih =>
    cases b with
    | nil =>
      by_cases hx : x = 0
      · simp [strcmp, cstr, hx]
      · simp [strcmp, cstr, hx, List.takeWhile_cons]
    | cons y ys =>
      by_cases hxy : x = y
      · subst hxy
        by_cases hx : x = 0
        · simp [strcmp, cstr, hx]
        · have := ih ys
          simp only [cstr] at this
          simp [strcmp, cstr, hx, List.takeWhile_cons, this]
      · have hne : ((x : Nat) : Int) - ((y : Nat) : Int) ≠ 0 := by
          intro h
          exact hxy (Int.ofNat_inj.mp (sub_eq_zero.mp h))
        by_cases hx : x = 0
        · subst hx
          have hy : y ≠ 0 := fun h => hxy h.symm
          simp [strcmp, cstr, hxy, hy, List.takeWhile_cons]
        · by_cases hy : y = 0
          · subst hy
            simp [strcmp, cstr, hxy, hx, List.takeWhile_cons]
          · simp [strcmp, cstr, hxy, hne, hx, hy, List.takeWhile_cons]

theorem find_process_id_loop_first (process_name : List BYTE) (snapshot : HANDLE)
    (pre : List PROCESSENTRY32) :
    ∀ (entry : PROCESSENTRY32) (rest : List PROCESSENTRY32) (e : PROCESSENTRY32)
      (post : List PROCESSENTRY32),
      entry :: rest = pre ++ e :: post →
      (∀ x ∈ pre, cstr x.szExeFile ≠ cstr process_name) →
      cstr e.szExeFile = cstr process_name →
      (find_process_id_loop process_name snapshot entry rest).1 = e.th32ProcessID := by
  induction pre with
  | nil =>
    intro entry rest e post hl _ he
    simp only [List.nil_append, List.cons.injEq] at hl
    obtain ⟨rfl, _⟩ := hl
    have h0 : strcmp process_name entry.szExeFile = 0 :=
      (strcmp_eq_zero_iff _ _).2 he.symm
    unfold find_process_id_loop
    simp [h0]
  | cons p pre ih =>
    intro entry rest e post hl hpre he
    simp only [List.cons_append, List.cons.injEq] at hl
    obtain ⟨rfl, hrest⟩ := hl
    have hne : strcmp process_name entry.szExeFile ≠ 0 := by
      intro h0
      exact hpre entry (List.mem_cons_self _ _) ((strcmp_eq_zero_iff _ _).1 h0).symm
    cases rest with
    | nil => cases pre <;> simp at hrest
    | cons next rest' =>
      have := ih next rest' e post hrest
        (fun x hx => hpre x (List.mem_cons_of_mem _ hx)) he
      unfold find_process_id_loop
      simp [hne, this]

theorem find_process_id_loop_none (process_name : List BYTE) (snapshot : HANDLE)
    (rest : List PROCESSENTRY32) :
    ∀ (entry : PROCESSENTRY32),
      (∀ x ∈ entry :: rest, cstr x.szExeFile ≠ cstr process_name) →
      (find_process_id_loop process_name snapshot entry rest).1 = 0 := by
  induction rest with
  | nil =>
    intro entry h
    have hne : strcmp process_name entry.szExeFile ≠ 0 := fun h0 =>
      h entry (List.mem_cons_self _ _) ((strcmp_eq_zero_iff _ _).1 h0).symm
    unfold find_process_id_loop
    simp [hne]
  | cons next rest' ih =>
    intro entry h
    have hne : strcmp process_name entry.szExeFile ≠ 0 := fun h0 =>
      h entry (List.mem_cons_self _ _) ((strcmp_eq_zero_iff _ _).1 h0).symm
    have := ih next (fun x hx => h x (List.mem_cons_of_mem _ hx))
    unfold find_process_id_loop
    simp [hne, this]

theorem find_process_id_loop_trace (process_name : List BYTE) (snapshot : HANDLE)
    (rest : List PROCESSENTRY32) :
    ∀ (entry : PROCESSENTRY32), ∃ mid,
      (find_process_id_loop process_name snapshot entry rest).2
        = mid ++ [Event.CloseHandle snapshot] ∧ ∀ e ∈ mid, e.enumerates = true := by
  induction rest with
  | nil =>
    intro entry
    unfold find_process_id_loop
    by_cases h : strcmp process_name entry.szExeFile = 0
    · exact ⟨[], by simp [h]⟩
    · exact ⟨[Event.Process32Next snapshot none], by simp [h, Event.enumerates]⟩
  | cons next rest' ih =>
    intro entry
    unfold find_process_id_loop
    by_cases h : strcmp process_name entry.szExeFile = 0
    · exact ⟨[], by simp [h]⟩
    · obtain ⟨mid, hmid, hall⟩ := ih next
      refine ⟨Event.Process32Next snapshot (some next) :: mid, by simp [h, hmid], ?_⟩
      intro e he
      rcases List.mem_cons.1 he with rfl | he
      · rfl
      · exact hall e he

theorem find_process_id_trace (w : World) (process_name : List BYTE) :
    (w.CreateToolhelp32Snapshot TH32CS_SNAPPROCESS 0 = INVALID_HANDLE_VALUE ∧
      (find_process_id w process_name).2 =
        [Event.CreateToolhelp32Snapshot TH32CS_SNAPPROCESS 0 INVALID_HANDLE_VALUE]) ∨
    (w.CreateToolhelp32Snapshot TH32CS_SNAPPROCESS 0 ≠ INVALID_HANDLE_VALUE ∧
      ∃ mid, (find_process_id w process_name).2 =
        Event.CreateToolhelp32Snapshot TH32CS_SNAPPROCESS 0
            (w.CreateToolhelp32Snapshot TH32CS_SNAPPROCESS 0)
          :: (mid ++ [Event.CloseHandle (w.CreateToolhelp32Snapshot TH32CS_SNAPPROCESS 0)]) ∧
        ∀ e ∈ mid, e.enumerates = true) := by
  by_cases hs : w.CreateToolhelp32Snapshot TH32CS_SNAPPROCESS 0 = INVALID_HANDLE_VALUE
  · left
    refine ⟨hs, ?_⟩
    simp [find_process_id, hs]
  · right
    refine ⟨hs, ?_⟩
    cases hp : w.processes with
    | nil =>
      refine ⟨[Event.Process32First (w.CreateToolhelp32Snapshot TH32CS_SNAPPROCESS 0) none], ?_, ?_⟩
      · simp [find_process_id, hs, hp]
      · simp [Event.enumerates]
    | cons entry rest =>
      obtain ⟨mid, hmid, hall⟩ :=
        find_process_id_loop_trace process_name
          (w.CreateToolhelp32Snapshot TH32CS_SNAPPROCESS 0) rest entry
      refine ⟨Event.Process32First (w.CreateToolhelp32Snapshot TH32CS_SNAPPROCESS 0) (some entry) :: mid, ?_, ?_⟩
      · simp [find_process_id, hs, hp, hmid]
      · intro e he
        rcases List.mem_cons.1 he with rfl | he
        · rfl
        · exact hall e he

/-! ## Facts about traces -/

theorem ledger_append (a b : List Event) :
    ∀ held, ledger (a ++ b) held = (ledger a held).bind (ledger b) := by
  induction a with
  | nil => intro held; simp [ledger]
  | cons e es ih =>
    intro held
    simp only [List.cons_append, ledger]
    cases e.releases with
    | some r =>
      by_cases hr : r ∈ held
      · simp [hr, ih]
      · simp [hr]
    | none =>
      cases e.acquires with
      | some r => simp [ih]
      | none => simp [ih]

theorem enumerates_quiet (e : Event) (h : e.enumerates = true) :
    e.releases = none ∧ e.acquires = none ∧ e.stage = none ∧ e.failed = false ∧
      e.isWrite = false ∧ e.locates = true := by
  cases e <;> simp_all [Event.enumerates, Event.releases, Event.acquires, Event.stage,
    Event.failed, Event.isWrite, Event.locates]

theorem ledger_enumeration (mid : List Event) (h : ∀ e ∈ mid, e.enumerates = true) :
    ∀ held, ledger mid held = some held := by
  induction mid with
  | nil => intro held; rfl
  | cons e es ih =>
    intro held
    have he := enumerates_quiet e (h e (List.mem_cons_self _ _))
    simp only [ledger, he.1, he.2.1]
    exact ih (fun x hx => h x (List.mem_cons_of_mem _ hx)) held

theorem ledger_find_process_id (w : World) (process_name : List BYTE) :
    ledger (find_process_id w process_name).2 [] = some [] := by
  rcases find_process_id_trace w process_name with ⟨_, ht⟩ | ⟨hs, mid, ht, hall⟩
  · rw [ht]
    simp [ledger, Event.releases, Event.acquires]
  · rw [ht]
    simp only [ledger, Event.releases, Event.acquires, hs, if_false]
    rw [ledger_append, ledger_enumeration mid hall]
    simp [ledger, Event.releases]

theorem ledger_counts (t : List Event) :
    ∀ held rest, ledger t held = some rest →
      ∀ r, held.count r + (acquired t).count r = rest.count r + (released t).count r := by
  induction t with
  | nil =>
    intro held rest h r
    simp only [ledger, Option.some.injEq] at h
    simp [acquired, released, h]
  | cons e es ih =>
    intro held rest h r
    simp only [ledger] at h
    cases hrel : e.releases with
    | some x =>
      rw [hrel] at h
      have hacq : e.acquires = none := by
        cases e <;> simp_all [Event.releases, Event.acquires]
      by_cases hx : x ∈ held
      · simp only [hx, if_true] at h
        have := ih _ _ h r
        simp only [acquired, released, List.filterMap_cons, hrel, hacq] at this ⊢
        rw [List.count_cons]
        rw [List.count_erase] at this
        by_cases hxr : x = r
        · subst hxr
          have hpos : 0 < held.count x := List.count_pos_iff.2 hx
          simp at this ⊢
          omega
        · have hxr' : ¬ r = x := fun h => hxr h.symm
          simp [hxr, hxr'] at this ⊢
          omega
      · simp [hx] at h
    | none =>
      rw [hrel] at h
      cases hacq : e.acquires with
      | some x =>
        rw [hacq] at h
        have := ih _ _ h r
        simp only [acquired, released, List.filterMap_cons, hrel, hacq] at this ⊢
        rw [List.count_cons] at this ⊢
        omega
      | none =>
        rw [hacq] at h
        have := ih _ _ h r
        simp only [acquired, released, List.filterMap_cons, hrel, hacq] at this ⊢
        exact this

theorem allSplits_iff (R : List Event → Event → List Event → Prop) (t : List Event) :
    ∀ acc, AllSplits R acc t ↔
      ∀ pre e post, t = pre ++ e :: post → R (acc ++ pre) e post := by
  induction t with
  | nil =>
    intro acc
    simp [AllSplits]
  | cons x xs ih =>
    intro acc
    simp only [AllSplits, ih]
    constructor
    · rintro ⟨h0, h1⟩ pre e post hsplit
      cases pre with
      | nil =>
        simp only [List.nil_append, List.cons.injEq] at hsplit
        obtain ⟨rfl, rfl⟩ := hsplit
        simpa using h0
      | cons y ys =>
        simp only [List.cons_append, List.cons.injEq] at hsplit
        obtain ⟨rfl, hxs⟩ := hsplit
        simpa using h1 ys e post hxs
    · intro h
      refine ⟨by simpa using h [] x xs rfl, ?_⟩
      intro pre e post hsplit
      simpa using h (x :: pre) e post (by simp [hsplit])

theorem allSplits_nil (R : List Event → Event → List Event → Prop) (t : List Event)
    (h : AllSplits R [] t) : ∀ pre e post, t = pre ++ e :: post → R pre e post := by
  intro pre e post hsplit
  simpa using (allSplits_iff R t []).1 h pre e post hsplit

theorem allSplits_append (R : List Event → Event → List Event → Prop) (a b : List Event)
    (ha : ∀ e ∈ a, ∀ pre post, R pre e post) :
    ∀ acc, AllSplits R (acc ++ a) b → AllSplits R acc (a ++ b) := by
  induction a with
  | nil => intro acc h; simpa using h
  | cons x xs ih =>
    intro acc h
    simp only [List.cons_append, AllSplits]
    refine ⟨ha x (List.mem_cons_self _ _) _ _, ?_⟩
    apply ih (fun e he => ha e (List.mem_cons_of_mem _ he))
    simpa using h

theorem find_process_id_events (w : World) (process_name : List BYTE) :
    ∀ e ∈ (find_process_id w process_name).2,
      e.locates = true ∨
        e = Event.CloseHandle (w.CreateToolhelp32Snapshot TH32CS_SNAPPROCESS 0) := by
  intro e he
  rcases find_process_id_trace w process_name with ⟨_, ht⟩ | ⟨_, mid, ht, hall⟩
  · rw [ht] at he
    simp only [List.mem_singleton] at he
    subst he
    left; rfl
  · rw [ht] at he
    simp only [List.mem_cons, List.mem_append, List.mem_singleton, List.not_mem_nil, or_false] at he
    rcases he with rfl | he | rfl
    · left; rfl
    · left; exact (enumerates_quiet e (hall e he)).2.2.2.2.2
    · right; rfl

theorem find_process_id_events_quiet (w : World) (process_name : List BYTE) :
    ∀ e ∈ (find_process_id w process_name).2,
      e.stage = none ∧ e.failed = false ∧ e.isWrite = false := by
  intro e he
  rcases find_process_id_events w process_name e he with h | rfl
  · cases e <;> simp_all [Event.locates, Event.stage, Event.failed, Event.isWrite]
  · simp [Event.stage, Event.failed, Event.isWrite]

theorem not_mem_find_process_id (w : World) (process_name : List BYTE) (e : Event)
    (h : e.stage ≠ none) : e ∉ (find_process_id w process_name).2 :=
  fun he => h (find_process_id_events_quiet w process_name e he).1

/-! ## Claims about the locator -/

/-- C1: when the snapshot is taken and the enumeration holds an entry `e` whose
executable file name equals the target name byte for byte, with no such
entry before it in enumeration order, `find_process_id` returns the
identifier of `e`: the first match wins, whatever follows it, so the result
is never the different identifier of a later entry. -/
theorem find_process_id_first_match (w : World) (process_name : List BYTE)
    (pre : List PROCESSENTRY32) (e : PROCESSENTRY32) (post : List PROCESSENTRY32)
    (hsnap : w.CreateToolhelp32Snapshot TH32CS_SNAPPROCESS 0 ≠ INVALID_HANDLE_VALUE)
    (hlist : w.processes = pre ++ e :: post)
    (hpre : ∀ x ∈ pre, cstr x.szExeFile ≠ cstr process_name)
    (he : cstr e.szExeFile = cstr process_name) :
    (find_process_id w process_name).1 = e.th32ProcessID ∧
      ∀ x ∈ post, x.th32ProcessID ≠ e.th32ProcessID →
        (find_process_id w process_name).1 ≠ x.th32ProcessID := by
  have hfirst : (find_process_id w process_name).1 = e.th32ProcessID := by
    cases hp : w.processes with
    | nil =>
      rw [hp] at hlist
      cases pre <;> simp at hlist
    | cons entry rest =>
      rw [hp] at hlist
      have := find_process_id_loop_first process_name
        (w.CreateToolhelp32Snapshot TH32CS_SNAPPROCESS 0) pre entry rest e post hlist hpre he
      simp [find_process_id, hsnap, hp, this]
  exact ⟨hfirst, fun x _ hx => by rw [hfirst]; exact fun h => hx h.symm⟩

/-- Witness for C1: with two entries named `RocketLeague.exe` (identifiers 100 and
200) after one other process, the result is 100. -/
theorem find_process_id_first_match_witness :
    (mock two_games (some true) 9 2000 3000 .complete 11 (some 1)).processes
        = [⟨4, c_literal "System"⟩] ++ ⟨100, c_literal "RocketLeague.exe"⟩
          :: [⟨200, c_literal "RocketLeague.exe" ++ [0, 65]⟩] ∧
      (find_process_id (mock two_games (some true) 9 2000 3000 .complete 11 (some 1))
        (c_literal "RocketLeague.exe")).1 = 100 :=
  ⟨rfl, (find_process_id_first_match
    (mock two_games (some true) 9 2000 3000 .complete 11 (some 1))
    (c_literal "RocketLeague.exe") [⟨4, c_literal "System"⟩]
    ⟨100, c_literal "RocketLeague.exe"⟩ [⟨200, c_literal "RocketLeague.exe" ++ [0, 65]⟩]
    (by decide) rfl (by decide) (by decide)).1⟩

/-- C2: `find_process_id` returns 0 when the snapshot cannot be taken, when the
enumeration is empty, and when no enumerated entry has the target name as
its executable file name. -/
theorem find_process_id_not_found (w : World) (process_name : List BYTE)
    (h : w.CreateToolhelp32Snapshot TH32CS_SNAPPROCESS 0 = INVALID_HANDLE_VALUE ∨
      w.processes = [] ∨
      ∀ x ∈ w.processes, cstr x.szExeFile ≠ cstr process_name) :
    (find_process_id w process_name).1 = 0 := by
  by_cases hs : w.CreateToolhelp32Snapshot TH32CS_SNAPPROCESS 0 = INVALID_HANDLE_VALUE
  · simp [find_process_id, hs]
  · cases hp : w.processes with
    | nil => simp [find_process_id, hs, hp]
    | cons entry rest =>
      rcases h with h | h | h
      · exact absurd h hs
      · rw [hp] at h
        cases h
      · rw [hp] at h
        have := find_process_id_loop_none process_name
          (w.CreateToolhelp32Snapshot TH32CS_SNAPPROCESS 0) rest entry h
        simp [find_process_id, hs, hp, this]

/-- Witness for C2: a process table whose only similar name differs in case. -/
theorem find_process_id_not_found_witness :
    (∀ x ∈ (mock no_game (some true) 9 2000 3000 .complete 11 (some 1)).processes,
        cstr x.szExeFile ≠ cstr (c_literal "RocketLeague.exe")) ∧
      (find_process_id (mock no_game (some true) 9 2000 3000 .complete 11 (some 1))
        (c_literal "RocketLeague.exe")).1 = 0 :=
  ⟨by decide, find_process_id_not_found
    (mock no_game (some true) 9 2000 3000 .complete 11 (some 1))
    (c_literal "RocketLeague.exe") (Or.inr (Or.inr (by decide)))⟩

/-! ## Facts about the payload bytes and the buffer -/

theorem wide_bytes_length (ws : List wchar_t) :
    (wide_bytes ws).length = ws.length * sizeof_wchar_t := by
  induction ws with
  | nil => rfl
  | cons c cs ih =>
    simp only [wide_bytes, wchar_bytes, List.length_append, List.length_cons, List.length_nil,
      ih, sizeof_wchar_t]
    omega

theorem wide_bytes_append (a b : List wchar_t) :
    wide_bytes (a ++ b) = wide_bytes a ++ wide_bytes b := by
  induction a with
  | nil => rfl
  | cons c cs ih => simp [wide_bytes, ih]

theorem mem_read_mem_write (m : LPVOID → BYTE) (base : LPVOID) (bytes : List BYTE) :
    mem_read (mem_write m base bytes) base bytes.length = bytes := by
  apply List.ext_getElem
  · simp [mem_read]
  · intro i h1 h2
    simp only [mem_read, List.length_map, List.length_range] at h1
    simp [mem_read, mem_write, h1, List.getD_eq_getElem?_getD, List.getElem?_eq_getElem h1]

theorem payload_bytes (dll_path : List wchar_t)
    (hfit : (dll_path.length + 1) * sizeof_wchar_t < SIZE_MOD) :
    ((dll_path.length + 1) * sizeof_wchar_t) % SIZE_MOD = (dll_path.length + 1) * sizeof_wchar_t ∧
      (wide_bytes (c_str dll_path)).take (((dll_path.length + 1) * sizeof_wchar_t) % SIZE_MOD)
        = wide_bytes dll_path ++ wide_bytes [0] := by
  have hmod := Nat.mod_eq_of_lt hfit
  refine ⟨hmod, ?_⟩
  rw [hmod, c_str, ← wide_bytes_append]
  apply List.take_of_length_le
  rw [wide_bytes_length]
  simp

/-! ## Facts about the entry point -/

theorem get_app_data_events (w : World) :
    ∀ e ∈ (get_app_data w).2, e.stage = none ∧ e.locates = false ∧ e.acquires = none := by
  intro e he
  unfold get_app_data at he
  cases hpath : w.SHGetKnownFolderPath.2 with
  | none =>
    simp only [hpath, List.mem_singleton] at he
    subst he
    simp [Event.stage, Event.locates, Event.acquires]
  | some path =>
    simp only [hpath] at he
    split_ifs at he <;>
      simp only [List.mem_append, List.mem_singleton] at he <;>
      rcases he with rfl | rfl <;>
      simp [Event.stage, Event.locates, Event.acquires]

theorem inject_dll_not_located (w : World) (dll_path : List wchar_t)
    (h : (find_process_id w (c_literal "RocketLeague.exe")).1 = 0) :
    (inject_dll w dll_path).ret = .ERR_PROCESS_NOT_FOUND ∧
      (inject_dll w dll_path).trace = (find_process_id w (c_literal "RocketLeague.exe")).2 ++
        [Event.MessageBoxA "rocket League process not found." "error" (MB_OK ||| MB_ICONERROR)] := by
  simp [inject_dll, h, show_msgbox]

theorem toBOOL_eq_true_iff (wr : WriteResult) : wr.toBOOL = true ↔ wr = .complete := by
  cases wr <;> simp [WriteResult.toBOOL]

/-! ## Claims about the injector -/

/-- C3: in every run of `inject_dll`, whatever each stage answers, the counting
ledger of the trace is valid and ends empty: every release gives back a
resource that is held at that moment (nothing that was not acquired is
released, nothing is released twice) and every resource acquired has been
released when the function returns; hence for every resource the number of
acquisitions equals the number of releases. -/
theorem inject_dll_resources_balanced (w : World) (dll_path : List wchar_t) :
    ledger (inject_dll w dll_path).trace [] = some [] ∧
      ∀ r, (acquired (inject_dll w dll_path).trace).count r
        = (released (inject_dll w dll_path).trace).count r := by
  have h1 : ledger (inject_dll w dll_path).trace [] = some [] := by
    simp only [inject_dll]
    split_ifs <;>
      simp [ledger_append, ledger_find_process_id, ledger, Event.releases, Event.acquires,
        show_msgbox, *]
  exact ⟨h1, fun r => by simpa using ledger_counts _ _ _ h1 r⟩

/-- The seven ways through `inject_dll`, with the answers of the operating system
named: the value returned, the calls made after the locator and the memory
left behind on each. -/
theorem inject_dll_paths (w : World) (dll_path : List wchar_t) :
    ∃ (process : HANDLE) (kernel32 : Nat) (loader : LPVOID) (buffer : LPVOID)
      (wr : WriteResult) (thread : HANDLE) (got : Option DWORD),
      ((find_process_id w (c_literal "RocketLeague.exe")).1 = 0 ∧
        (inject_dll w dll_path).ret = .ERR_PROCESS_NOT_FOUND ∧
        (inject_dll w dll_path).trace = (find_process_id w (c_literal "RocketLeague.exe")).2 ++
          [Event.MessageBoxA "rocket League process not found." "error" (MB_OK ||| MB_ICONERROR)])
      ∨ ((find_process_id w (c_literal "RocketLeague.exe")).1 ≠ 0 ∧ process = 0 ∧
        (inject_dll w dll_path).ret = .ERR_PROCESS_NOT_FOUND ∧
        (inject_dll w dll_path).trace = (find_process_id w (c_literal "RocketLeague.exe")).2 ++
          [Event.OpenProcess open_flags false
              (find_process_id w (c_literal "RocketLeague.exe")).1 process,
            Event.MessageBoxA "failed to open rocket league process." "error"
              (MB_OK ||| MB_ICONERROR)])
      ∨ ((find_process_id w (c_literal "RocketLeague.exe")).1 ≠ 0 ∧ process ≠ 0 ∧ loader = 0 ∧
        (inject_dll w dll_path).ret = .ERR_INJECT_FAILED ∧
        (inject_dll w dll_path).trace = (find_process_id w (c_literal "RocketLeague.exe")).2 ++
          [Event.OpenProcess open_flags false
              (find_process_id w (c_literal "RocketLeague.exe")).1 process,
            Event.GetModuleHandleW (w_literal "kernel32.dll") kernel32,
            Event.GetProcAddress kernel32 (c_literal "LoadLibraryW") loader,
            Event.CloseHandle process])
      ∨ ((find_process_id w (c_literal "RocketLeague.exe")).1 ≠ 0 ∧ process ≠ 0 ∧ loader ≠ 0 ∧
        buffer = 0 ∧
        (inject_dll w dll_path).ret = .ERR_INJECT_FAILED ∧
        (inject_dll w dll_path).trace = (find_process_id w (c_literal "RocketLeague.exe")).2 ++
          [Event.OpenProcess open_flags false
              (find_process_id w (c_literal "RocketLeague.exe")).1 process,
            Event.GetModuleHandleW (w_literal "kernel32.dll") kernel32,
            Event.GetProcAddress kernel32 (c_literal "LoadLibraryW") loader,
            Event.VirtualAllocEx process 0 (((dll_path.length + 1) * sizeof_wchar_t) % SIZE_MOD)
              (MEM_COMMIT ||| MEM_RESERVE) PAGE_READWRITE buffer,
            Event.CloseHandle process])
      ∨ ((find_process_id w (c_literal "RocketLeague.exe")).1 ≠ 0 ∧ process ≠ 0 ∧ loader ≠ 0 ∧
        buffer ≠ 0 ∧ wr.toBOOL = false ∧
        (inject_dll w dll_path).ret = .ERR_INJECT_FAILED ∧
        (inject_dll w dll_path).memory = wr.apply w.memory buffer
          ((wide_bytes (c_str dll_path)).take
            (((dll_path.length + 1) * sizeof_wchar_t) % SIZE_MOD)) ∧
        (inject_dll w dll_path).trace = (find_process_id w (c_literal "RocketLeague.exe")).2 ++
          [Event.OpenProcess open_flags false
              (find_process_id w (c_literal "RocketLeague.exe")).1 process,
            Event.GetModuleHandleW (w_literal "kernel32.dll") kernel32,
            Event.GetProcAddress kernel32 (c_literal "LoadLibraryW") loader,
            Event.VirtualAllocEx process 0 (((dll_path.length + 1) * sizeof_wchar_t) % SIZE_MOD)
              (MEM_COMMIT ||| MEM_RESERVE) PAGE_READWRITE buffer,
            Event.WriteProcessMemory process buffer
              ((wide_bytes (c_str dll_path)).take
                (((dll_path.length + 1) * sizeof_wchar_t) % SIZE_MOD))
              (((dll_path.length + 1) * sizeof_wchar_t) % SIZE_MOD) wr,
            Event.VirtualFreeEx process buffer 0 MEM_RELEASE,
            Event.CloseHandle process])
      ∨ ((find_process_id w (c_literal "RocketLeague.exe")).1 ≠ 0 ∧ process ≠ 0 ∧ loader ≠ 0 ∧
        buffer ≠ 0 ∧ wr.toBOOL = true ∧ thread = 0 ∧
        (inject_dll w dll_path).ret = .ERR_INJECT_FAILED ∧
        (inject_dll w dll_path).memory = wr.apply w.memory buffer
          ((wide_bytes (c_str dll_path)).take
            (((dll_path.length + 1) * sizeof_wchar_t) % SIZE_MOD)) ∧
        (inject_dll w dll_path).trace = (find_process_id w (c_literal "RocketLeague.exe")).2 ++
          [Event.OpenProcess open_flags false
              (find_process_id w (c_literal "RocketLeague.exe")).1 process,
            Event.GetModuleHandleW (w_literal "kernel32.dll") kernel32,
            Event.GetProcAddress kernel32 (c_literal "LoadLibraryW") loader,
            Event.VirtualAllocEx process 0 (((dll_path.length + 1) * sizeof_wchar_t) % SIZE_MOD)
              (MEM_COMMIT ||| MEM_RESERVE) PAGE_READWRITE buffer,
            Event.WriteProcessMemory process buffer
              ((wide_bytes (c_str dll_path)).take
                (((dll_path.length + 1) * sizeof_wchar_t) % SIZE_MOD))
              (((dll_path.length + 1) * sizeof_wchar_t) % SIZE_MOD) wr,
            Event.CreateRemoteThread process loader buffer 0 thread,
            Event.VirtualFreeEx process buffer 0 MEM_RELEASE,
            Event.CloseHandle process])
      ∨ ((find_process_id w (c_literal "RocketLeague.exe")).1 ≠ 0 ∧ process ≠ 0 ∧ loader ≠ 0 ∧
        buffer ≠ 0 ∧ wr.toBOOL = true ∧ thread ≠ 0 ∧
        (inject_dll w dll_path).ret
          = (if got.getD 0 ≠ 0 then exit_code.EXIT_OK else exit_code.ERR_INJECT_FAILED) ∧
        (inject_dll w dll_path).memory = wr.apply w.memory buffer
          ((wide_bytes (c_str dll_path)).take
            (((dll_path.length + 1) * sizeof_wchar_t) % SIZE_MOD)) ∧
        (inject_dll w dll_path).trace = (find_process_id w (c_literal "RocketLeague.exe")).2 ++
          [Event.OpenProcess open_flags false
              (find_process_id w (c_literal "RocketLeague.exe")).1 process,
            Event.GetModuleHandleW (w_literal "kernel32.dll") kernel32,
            Event.GetProcAddress kernel32 (c_literal "LoadLibraryW") loader,
            Event.VirtualAllocEx process 0 (((dll_path.length + 1) * sizeof_wchar_t) % SIZE_MOD)
              (MEM_COMMIT ||| MEM_RESERVE) PAGE_READWRITE buffer,
            Event.WriteProcessMemory process buffer
              ((wide_bytes (c_str dll_path)).take
                (((dll_path.length + 1) * sizeof_wchar_t) % SIZE_MOD))
              (((dll_path.length + 1) * sizeof_wchar_t) % SIZE_MOD) wr,
            Event.CreateRemoteThread process loader buffer 0 thread,
            Event.WaitForSingleObject thread INFINITE,
            Event.GetExitCodeThread thread got,
            Event.VirtualFreeEx process buffer 0 MEM_RELEASE,
            Event.CloseHandle thread,
            Event.CloseHandle process]) := by
  refine ⟨w.OpenProcess open_flags false (find_process_id w (c_literal "RocketLeague.exe")).1,
    w.GetModuleHandleW (w_literal "kernel32.dll"),
    w.GetProcAddress (w.GetModuleHandleW (w_literal "kernel32.dll")) (c_literal "LoadLibraryW"),
    w.VirtualAllocEx (w.OpenProcess open_flags false
        (find_process_id w (c_literal "RocketLeague.exe")).1) 0
      (((dll_path.length + 1) * sizeof_wchar_t) % SIZE_MOD) (MEM_COMMIT ||| MEM_RESERVE)
      PAGE_READWRITE, ?_⟩
  refine ⟨w.WriteProcessMemory
      (w.OpenProcess open_flags false (find_process_id w (c_literal "RocketLeague.exe")).1)
      (w.VirtualAllocEx (w.OpenProcess open_flags false
          (find_process_id w (c_literal "RocketLeague.exe")).1) 0
        (((dll_path.length + 1) * sizeof_wchar_t) % SIZE_MOD) (MEM_COMMIT ||| MEM_RESERVE)
        PAGE_READWRITE)
      ((wide_bytes (c_str dll_path)).take (((dll_path.length + 1) * sizeof_wchar_t) % SIZE_MOD))
      (((dll_path.length + 1) * sizeof_wchar_t) % SIZE_MOD), ?_⟩
  refine ⟨w.CreateRemoteThread
      (w.OpenProcess open_flags false (find_process_id w (c_literal "RocketLeague.exe")).1)
      (w.GetProcAddress (w.GetModuleHandleW (w_literal "kernel32.dll"))
        (c_literal "LoadLibraryW"))
      (w.VirtualAllocEx (w.OpenProcess open_flags false
          (find_process_id w (c_literal "RocketLeague.exe")).1) 0
        (((dll_path.length + 1) * sizeof_wchar_t) % SIZE_MOD) (MEM_COMMIT ||| MEM_RESERVE)
        PAGE_READWRITE) 0, ?_⟩
  refine ⟨w.GetExitCodeThread (w.CreateRemoteThread
      (w.OpenProcess open_flags false (find_process_id w (c_literal "RocketLeague.exe")).1)
      (w.GetProcAddress (w.GetModuleHandleW (w_literal "kernel32.dll"))
        (c_literal "LoadLibraryW"))
      (w.VirtualAllocEx (w.OpenProcess open_flags false
          (find_process_id w (c_literal "RocketLeague.exe")).1) 0
        (((dll_path.length + 1) * sizeof_wchar_t) % SIZE_MOD) (MEM_COMMIT ||| MEM_RESERVE)
        PAGE_READWRITE) 0), ?_⟩
  by_cases h1 : (find_process_id w (c_literal "RocketLeague.exe")).1 = 0
  · exact Or.inl ⟨h1, by simp [inject_dll, h1], by simp [inject_dll, h1, show_msgbox]⟩
  right
  by_cases h2 : w.OpenProcess open_flags false
      (find_process_id w (c_literal "RocketLeague.exe")).1 = 0
  · exact Or.inl ⟨h1, h2, by simp [inject_dll, h1, h2], by simp [inject_dll, h1, h2, show_msgbox]⟩
  right
  by_cases h3 : w.GetProcAddress (w.GetModuleHandleW (w_literal "kernel32.dll"))
      (c_literal "LoadLibraryW") = 0
  · exact Or.inl ⟨h1, h2, h3, by simp [inject_dll, h1, h2, h3], by simp [inject_dll, h1, h2, h3]⟩
  right
  by_cases h4 : w.VirtualAllocEx (w.OpenProcess open_flags false
        (find_process_id w (c_literal "RocketLeague.exe")).1) 0
      (((dll_path.length + 1) * sizeof_wchar_t) % SIZE_MOD) (MEM_COMMIT ||| MEM_RESERVE)
      PAGE_READWRITE = 0
  · exact Or.inl ⟨h1, h2, h3, h4, by simp [inject_dll, h1, h2, h3, h4],
      by simp [inject_dll, h1, h2, h3, h4]⟩
  right
  by_cases h5 : (w.WriteProcessMemory
      (w.OpenProcess open_flags false (find_process_id w (c_literal "RocketLeague.exe")).1)
      (w.VirtualAllocEx (w.OpenProcess open_flags false
          (find_process_id w (c_literal "RocketLeague.exe")).1) 0
        (((dll_path.length + 1) * sizeof_wchar_t) % SIZE_MOD) (MEM_COMMIT ||| MEM_RESERVE)
        PAGE_READWRITE)
      ((wide_bytes (c_str dll_path)).take (((dll_path.length + 1) * sizeof_wchar_t) % SIZE_MOD))
      (((dll_path.length + 1) * sizeof_wchar_t) % SIZE_MOD)).toBOOL = false
  · exact Or.inl ⟨h1, h2, h3, h4, h5, by simp [inject_dll, h1, h2, h3, h4, h5],
      by simp [inject_dll, h1, h2, h3, h4, h5], by simp [inject_dll, h1, h2, h3, h4, h5]⟩
  right
  have h5' := Bool.eq_true_of_not_eq_false h5
  by_cases h6 : w.CreateRemoteThread
      (w.OpenProcess open_flags false (find_process_id w (c_literal "RocketLeague.exe")).1)
      (w.GetProcAddress (w.GetModuleHandleW (w_literal "kernel32.dll"))
        (c_literal "LoadLibraryW"))
      (w.VirtualAllocEx (w.OpenProcess open_flags false
          (find_process_id w (c_literal "RocketLeague.exe")).1) 0
        (((dll_path.length + 1) * sizeof_wchar_t) % SIZE_MOD) (MEM_COMMIT ||| MEM_RESERVE)
        PAGE_READWRITE) 0 = 0
  · exact Or.inl ⟨h1, h2, h3, h4, h5', h6, by simp [inject_dll, h1, h2, h3, h4, h5', h6],
      by simp [inject_dll, h1, h2, h3, h4, h5', h6],
      by simp [inject_dll, h1, h2, h3, h4, h5', h6]⟩
  right
  exact ⟨h1, h2, h3, h4, h5', h6, by simp [inject_dll, h1, h2, h3, h4, h5', h6],
    by simp [inject_dll, h1, h2, h3, h4, h5', h6],
    by simp [inject_dll, h1, h2, h3, h4, h5', h6]⟩

/-- C4: when the locator has found the target (a non-zero identifier),
`inject_dll` returns code 2 (ProcessNotFound) exactly when the trace holds an
`OpenProcess` call that answered NULL; a failing call of any other stage
(loader resolution, allocation, a write that did not copy the whole range,
thread creation) gives code 3 (InjectFailed); and after a failing call no
call of any stage is made: only notification and release calls follow. -/
theorem inject_dll_failure_codes (w : World) (dll_path : List wchar_t)
    (hloc : (find_process_id w (c_literal "RocketLeague.exe")).1 ≠ 0) :
    ((inject_dll w dll_path).ret.toInt = 2 ↔
        ∃ access inherit pid, Event.OpenProcess access inherit pid 0
          ∈ (inject_dll w dll_path).trace) ∧
      (∀ e ∈ (inject_dll w dll_path).trace, e.failed = true → e.stage ≠ some 1 →
        (inject_dll w dll_path).ret.toInt = 3) ∧
      (∀ pre e post, (inject_dll w dll_path).trace = pre ++ e :: post → e.failed = true →
        ∀ x ∈ post, x.stage = none) := by
  obtain ⟨process, kernel32, loader, buffer, wr, thread, got, hp⟩ := inject_dll_paths w dll_path
  have key : (0 = process) ↔ (process = 0) := eq_comm
  rcases hp with ⟨h0, _⟩ | ⟨_, h2, hr, ht⟩ | ⟨_, h2, h3, hr, ht⟩ | ⟨_, h2, h3, h4, hr, ht⟩ |
    ⟨_, h2, h3, h4, h5, hr, _, ht⟩ | ⟨_, h2, h3, h4, h5, h6, hr, _, ht⟩ |
    ⟨_, h2, h3, h4, h5, h6, hr, _, ht⟩
  · exact absurd h0 hloc
  all_goals
    simp only [hr, ht]
    clear hr ht
    refine ⟨?_, ?_, ?_⟩
    · have hn := not_mem_find_process_id w (c_literal "RocketLeague.exe")
      first
        | (split_ifs <;> simp [exit_code.toInt, hn, Event.stage, key, h2])
        | simp [exit_code.toInt, hn, Event.stage, key, h2]
    · have hq := find_process_id_events_quiet w (c_literal "RocketLeague.exe")
      intro e he0
      rcases List.mem_append.1 he0 with he | he
      · intro hf
        rw [(hq e he).2.1] at hf
        exact absurd hf (by simp)
      · clear hq he0
        revert e
        simp [Event.failed, Event.stage, exit_code.toInt, *]
    · have hq := find_process_id_events_quiet w (c_literal "RocketLeague.exe")
      refine allSplits_nil (fun _ e post => e.failed = true → ∀ x ∈ post, x.stage = none) _ ?_
      refine allSplits_append _ _ _ (fun e he _ _ hf => ?_) _ ?_
      · rw [(hq e he).2.1] at hf
        exact absurd hf (by simp)
      · clear hq
        simp [AllSplits, Event.failed, Event.stage, *]

/-- Witness for C4: the game is found and opened, and the write stops after three
of the six bytes; the result is code 3. -/
theorem inject_dll_failure_codes_witness :
    (find_process_id (mock two_games (some true) 9 2000 3000 (.short 3) 11 (some 1))
        (c_literal "RocketLeague.exe")).1 ≠ 0 ∧
      (inject_dll (mock two_games (some true) 9 2000 3000 (.short 3) 11 (some 1))
        [65, 66]).ret.toInt = 3 :=
  ⟨by decide,
    (inject_dll_failure_codes (mock two_games (some true) 9 2000 3000 (.short 3) 11 (some 1))
      [65, 66] (by decide)).2.1
      (Event.WriteProcessMemory 9 3000 [65, 0, 66, 0, 0, 0] 6 (.short 3))
      (by decide) (by decide) (by decide)⟩

/-- C5: when the trace holds a `CreateRemoteThread` call that returned a non-null
thread handle (so every stage up to and including thread creation
succeeded), the program waits on that handle, then reads the exit status,
and returns code 0 exactly when the status read is non-zero and code 3
exactly when it is zero.  The status read is the value of `exit_status`
after `GetExitCodeThread`: what the call stored, or the initial 0 when the
call failed. -/
theorem inject_dll_exit_status (w : World) (dll_path : List wchar_t)
    (process : HANDLE) (start : LPVOID) (param : LPVOID) (flags : DWORD) (thread : HANDLE)
    (hthread : Event.CreateRemoteThread process start param flags thread
      ∈ (inject_dll w dll_path).trace)
    (hnull : thread ≠ 0) :
    ∃ got pre post,
      (inject_dll w dll_path).trace = pre ++ Event.WaitForSingleObject thread INFINITE
        :: Event.GetExitCodeThread thread got :: post ∧
      ((inject_dll w dll_path).ret.toInt = 0 ↔ got.getD 0 ≠ 0) ∧
      ((inject_dll w dll_path).ret.toInt = 3 ↔ got.getD 0 = 0) := by
  have hn := not_mem_find_process_id w (c_literal "RocketLeague.exe")
  obtain ⟨process', kernel32, loader, buffer, wr, thread', got, hp⟩ :=
    inject_dll_paths w dll_path
  rcases hp with ⟨_, _, ht⟩ | ⟨_, _, _, ht⟩ | ⟨_, _, _, _, ht⟩ | ⟨_, _, _, _, _, ht⟩ |
    ⟨_, _, _, _, _, _, _, ht⟩ | ⟨_, _, _, _, _, h6, _, _, ht⟩ |
    ⟨_, _, _, _, _, h6, hr, _, ht⟩
  · rw [ht] at hthread; simp [hn, Event.stage] at hthread
  · rw [ht] at hthread; simp [hn, Event.stage] at hthread
  · rw [ht] at hthread; simp [hn, Event.stage] at hthread
  · rw [ht] at hthread; simp [hn, Event.stage] at hthread
  · rw [ht] at hthread; simp [hn, Event.stage] at hthread
  · rw [ht] at hthread
    simp [hn, Event.stage] at hthread
    exact absurd (hthread.2.2.2.2.trans h6) hnull
  · rw [ht] at hthread
    simp [hn, Event.stage] at hthread
    obtain ⟨_, _, _, _, rfl⟩ := hthread
    refine ⟨got, (find_process_id w (c_literal "RocketLeague.exe")).2 ++
        [Event.OpenProcess open_flags false
            (find_process_id w (c_literal "RocketLeague.exe")).1 process',
          Event.GetModuleHandleW (w_literal "kernel32.dll") kernel32,
          Event.GetProcAddress kernel32 (c_literal "LoadLibraryW") loader,
          Event.VirtualAllocEx process' 0 (((dll_path.length + 1) * sizeof_wchar_t) % SIZE_MOD)
            (MEM_COMMIT ||| MEM_RESERVE) PAGE_READWRITE buffer,
          Event.WriteProcessMemory process' buffer
            ((wide_bytes (c_str dll_path)).take
              (((dll_path.length + 1) * sizeof_wchar_t) % SIZE_MOD))
            (((dll_path.length + 1) * sizeof_wchar_t) % SIZE_MOD) wr,
          Event.CreateRemoteThread process' loader buffer 0 thread],
      [Event.VirtualFreeEx process' buffer 0 MEM_RELEASE,
        Event.CloseHandle thread, Event.CloseHandle process'], ?_, ?_, ?_⟩
    · rw [ht]
      simp
    · rw [hr]
      split_ifs with hg <;> simp [exit_code.toInt, hg]
    · rw [hr]
      split_ifs with hg
      · simp [exit_code.toInt, hg]
      · simp only [exit_code.toInt, true_iff]
        simpa using hg

/-- Witness for C5: all stages succeed and the remote loader returns 0. -/
theorem inject_dll_exit_status_witness :
    Event.CreateRemoteThread 9 2000 3000 0 11
        ∈ (inject_dll (mock two_games (some true) 9 2000 3000 .complete 11 (some 0))
          [65, 66]).trace ∧
      ∃ got pre post,
        (inject_dll (mock two_games (some true) 9 2000 3000 .complete 11 (some 0))
            [65, 66]).trace
          = pre ++ Event.WaitForSingleObject 11 INFINITE
            :: Event.GetExitCodeThread 11 got :: post ∧
        ((inject_dll (mock two_games (some true) 9 2000 3000 .complete 11 (some 0))
            [65, 66]).ret.toInt = 0 ↔ got.getD 0 ≠ 0) ∧
        ((inject_dll (mock two_games (some true) 9 2000 3000 .complete 11 (some 0))
            [65, 66]).ret.toInt = 3 ↔ got.getD 0 = 0) :=
  ⟨by decide, inject_dll_exit_status
    (mock two_games (some true) 9 2000 3000 .complete 11 (some 0)) [65, 66]
    9 2000 3000 0 11 (by decide) (by decide)⟩

/-- C6: for a payload path of length n (a `std::wstring`, whose length is small
enough that `(n + 1) * sizeof(wchar_t)` does not wrap in `size_t`), every
`VirtualAllocEx` call asks for `(n + 1) * sizeof(wchar_t)` bytes, and every
`WriteProcessMemory` call passes exactly the bytes of the path's wide
characters followed by one null wide character, with the byte count equal to
their number, `(n + 1) * sizeof(wchar_t)`; when the write completes into
the buffer standing for the target's memory, reading that many bytes back
from the buffer's address gives those same bytes. -/
theorem inject_dll_buffer_roundtrip (w : World) (dll_path : List wchar_t)
    (hfit : (dll_path.length + 1) * sizeof_wchar_t < SIZE_MOD) :
    (∀ process addr size type protect ret,
        Event.VirtualAllocEx process addr size type protect ret ∈ (inject_dll w dll_path).trace →
        size = (dll_path.length + 1) * sizeof_wchar_t) ∧
      (∀ process base bytes size wr,
        Event.WriteProcessMemory process base bytes size wr ∈ (inject_dll w dll_path).trace →
        bytes = wide_bytes dll_path ++ wide_bytes [0] ∧
          size = (dll_path.length + 1) * sizeof_wchar_t ∧
          bytes.length = size ∧
          (wr = WriteResult.complete →
            mem_read (inject_dll w dll_path).memory base size
              = wide_bytes dll_path ++ wide_bytes [0])) := by
  have hn := not_mem_find_process_id w (c_literal "RocketLeague.exe")
  obtain ⟨hsize, hbytes⟩ := payload_bytes dll_path hfit
  have hlen : (wide_bytes dll_path ++ wide_bytes [0]).length
      = (dll_path.length + 1) * sizeof_wchar_t := by
    rw [← wide_bytes_append, wide_bytes_length]
    simp
  obtain ⟨process', kernel32, loader, buffer, wr', thread, got, hp⟩ :=
    inject_dll_paths w dll_path
  rw [hbytes, hsize] at hp
  rcases hp with ⟨_, _, ht⟩ | ⟨_, _, _, ht⟩ | ⟨_, _, _, _, ht⟩ | ⟨_, _, _, _, _, ht⟩ |
    ⟨_, _, _, _, _, _, hm, ht⟩ | ⟨_, _, _, _, _, _, _, hm, ht⟩ |
    ⟨_, _, _, _, _, _, _, hm, ht⟩
  · rw [ht]; simp [hn, Event.stage]
  · rw [ht]; simp [hn, Event.stage]
  · rw [ht]; simp [hn, Event.stage]
  · rw [ht]
    refine ⟨?_, ?_⟩
    · intro process addr size type protect ret hmem
      simp [hn, Event.stage] at hmem
      exact hmem.2.2.1
    · simp [hn, Event.stage]
  all_goals
    rw [ht]
    refine ⟨?_, ?_⟩
    · intro process addr size type protect ret hmem
      simp [hn, Event.stage] at hmem
      exact hmem.2.2.1
    · intro process base bytes size wr hmem
      simp [hn, Event.stage] at hmem
      obtain ⟨_, rfl, rfl, rfl, rfl⟩ := hmem
      refine ⟨rfl, rfl, hlen, ?_⟩
      intro hwr
      rw [hm, hwr, WriteResult.apply, ← hlen]
      exact mem_read_mem_write _ _ _

/-- Witness for C6: the path `AB`, written into a buffer at address 3000. -/
theorem inject_dll_buffer_roundtrip_witness :
    ([65, 66].length + 1) * sizeof_wchar_t < SIZE_MOD ∧
      mem_read (inject_dll (mock two_games (some true) 9 2000 3000 .complete 11 (some 1))
        [65, 66]).memory 3000 6 = [65, 0, 66, 0, 0, 0] :=
  ⟨by decide,
    ((inject_dll_buffer_roundtrip
      (mock two_games (some true) 9 2000 3000 .complete 11 (some 1)) [65, 66]
      (by decide)).2 9 3000 [65, 0, 66, 0, 0, 0] 6 .complete (by decide)).2.2.2 rfl⟩

/-- C9, as the code has it: on every run of `inject_dll` that returns a failure
code, if no remote thread was created the resources acquired by the injector
are released in the reverse order of their acquisition; if a remote thread
was created, the process handle, the remote buffer and the thread handle
were acquired in that order and are released in the order remote buffer,
thread handle, process handle. -/
theorem inject_dll_release_order (w : World) (dll_path : List wchar_t)
    (_hfail : (inject_dll w dll_path).ret ≠ .EXIT_OK) :
    ((∀ process start param flags thread,
          Event.CreateRemoteThread process start param flags thread
            ∈ (inject_dll w dll_path).trace → thread = 0) →
        released (injector_trace w dll_path) = (acquired (injector_trace w dll_path)).reverse) ∧
      (∀ process start param flags thread,
        Event.CreateRemoteThread process start param flags thread
          ∈ (inject_dll w dll_path).trace → thread ≠ 0 →
        acquired (injector_trace w dll_path)
            = [.handle process, .region process param, .handle thread] ∧
          released (injector_trace w dll_path)
            = [.region process param, .handle thread, .handle process]) := by
  have hn := not_mem_find_process_id w (c_literal "RocketLeague.exe")
  obtain ⟨process', kernel32, loader, buffer, wr, thread', got, hp⟩ :=
    inject_dll_paths w dll_path
  rcases hp with ⟨_, _, ht⟩ | ⟨_, h2, _, ht⟩ | ⟨_, h2, h3, _, ht⟩ | ⟨_, h2, h3, h4, _, ht⟩ |
    ⟨_, h2, h3, h4, h5, _, _, ht⟩ | ⟨_, h2, h3, h4, h5, h6, _, _, ht⟩ |
    ⟨_, h2, h3, h4, h5, h6, _, _, ht⟩
  · simp only [injector_trace, ht, List.drop_left]
    refine ⟨fun _ => ?_, fun process start param flags thread hmem _ => ?_⟩
    · simp [released, acquired, Event.releases, Event.acquires, MB_OK]
    · simp [hn, Event.stage] at hmem
  · simp only [injector_trace, ht, List.drop_left]
    refine ⟨fun _ => ?_, fun process start param flags thread hmem _ => ?_⟩
    · simp [released, acquired, Event.releases, Event.acquires, h2]
    · simp [hn, Event.stage] at hmem
  · simp only [injector_trace, ht, List.drop_left]
    refine ⟨fun _ => ?_, fun process start param flags thread hmem _ => ?_⟩
    · simp [released, acquired, Event.releases, Event.acquires, h2, h3]
    · simp [hn, Event.stage] at hmem
  · simp only [injector_trace, ht, List.drop_left]
    refine ⟨fun _ => ?_, fun process start param flags thread hmem _ => ?_⟩
    · simp [released, acquired, Event.releases, Event.acquires, h2, h3, h4]
    · simp [hn, Event.stage] at hmem
  · simp only [injector_trace, ht, List.drop_left]
    refine ⟨fun _ => ?_, fun process start param flags thread hmem _ => ?_⟩
    · simp [released, acquired, Event.releases, Event.acquires, h2, h3, h4]
    · simp [hn, Event.stage] at hmem
  · simp only [injector_trace, ht, List.drop_left]
    refine ⟨fun _ => ?_, fun process start param flags thread hmem hnull => ?_⟩
    · simp [released, acquired, Event.releases, Event.acquires, h2, h4, h6]
    · simp [hn, Event.stage] at hmem
      exact absurd (hmem.2.2.2.2.trans h6) hnull
  · simp only [injector_trace, ht, List.drop_left]
    refine ⟨fun hno => ?_, fun process start param flags thread hmem hnull => ?_⟩
    · exact absurd (hno process' loader buffer 0 thread' (by simp)) h6
    · simp [hn, Event.stage] at hmem
      obtain ⟨rfl, rfl, rfl, rfl, rfl⟩ := hmem
      simp [released, acquired, Event.releases, Event.acquires, h2, h4, h6]

/-- Witness for C9 as the code has it: every stage succeeds and the remote loader
returns 0. -/
theorem inject_dll_release_order_witness :
    (inject_dll (mock two_games (some true) 9 2000 3000 .complete 11 (some 0)) [65, 66]).ret
        ≠ .EXIT_OK ∧
      acquired (injector_trace (mock two_games (some true) 9 2000 3000 .complete 11 (some 0))
        [65, 66]) = [.handle 9, .region 9 3000, .handle 11] ∧
      released (injector_trace (mock two_games (some true) 9 2000 3000 .complete 11 (some 0))
        [65, 66]) = [.region 9 3000, .handle 11, .handle 9] :=
  ⟨by decide,
    (inject_dll_release_order (mock two_games (some true) 9 2000 3000 .complete 11 (some 0))
      [65, 66] (by decide)).2 9 2000 3000 0 11 (by decide) (by decide)⟩

/-- C9 fails as stated: with every stage succeeding and the remote loader
returning 0, `inject_dll` returns the failure code `ERR_INJECT_FAILED`, the
injector acquired process handle 9, buffer 3000 and thread handle 11 in that
order, and released the buffer first, then the thread handle, then the
process handle, which is not the reverse of the acquisition order. -/
theorem inject_dll_release_order_counterexample :
    (inject_dll (mock two_games (some true) 9 2000 3000 .complete 11 (some 0)) [65, 66]).ret
        = .ERR_INJECT_FAILED ∧
      acquired (injector_trace (mock two_games (some true) 9 2000 3000 .complete 11 (some 0))
        [65, 66]) = [.handle 9, .region 9 3000, .handle 11] ∧
      released (injector_trace (mock two_games (some true) 9 2000 3000 .complete 11 (some 0))
        [65, 66]) = [.region 9 3000, .handle 11, .handle 9] ∧
      released (injector_trace (mock two_games (some true) 9 2000 3000 .complete 11 (some 0))
        [65, 66]) ≠ (acquired (injector_trace
          (mock two_games (some true) 9 2000 3000 .complete 11 (some 0)) [65, 66])).reverse := by
  decide

theorem inject_dll_thread_positions (w : World) (dll_path : List wchar_t) :
    AllSplits WriteBeforeThread [] (inject_dll w dll_path).trace := by
  have hn := not_mem_find_process_id w (c_literal "RocketLeague.exe")
  have hlocator : ∀ e ∈ (find_process_id w (c_literal "RocketLeague.exe")).2,
      ∀ pre post, WriteBeforeThread pre e post := by
    intro e he _ _ process start param flags thread heq
    rw [heq] at he
    exact absurd he (hn _ (by simp [Event.stage]))
  obtain ⟨process', kernel32, loader, buffer', wr, thread', got, hp⟩ :=
    inject_dll_paths w dll_path
  generalize (wide_bytes (c_str dll_path)).take
    (((dll_path.length + 1) * sizeof_wchar_t) % SIZE_MOD) = src at hp
  generalize ((dll_path.length + 1) * sizeof_wchar_t) % SIZE_MOD = n at hp
  clear hn
  rcases hp with ⟨_, _, ht⟩ | ⟨_, _, _, ht⟩ | ⟨_, _, _, _, ht⟩ | ⟨_, _, _, _, _, ht⟩ |
    ⟨_, _, _, _, _, _, _, ht⟩ | ⟨_, _, _, _, h5, _, _, _, ht⟩ |
    ⟨_, _, _, _, h5, _, _, _, ht⟩
  · rw [ht]
    refine allSplits_append _ _ _ hlocator _ ?_
    simp [AllSplits, WriteBeforeThread]
  · rw [ht]
    refine allSplits_append _ _ _ hlocator _ ?_
    simp [AllSplits, WriteBeforeThread]
  · rw [ht]
    refine allSplits_append _ _ _ hlocator _ ?_
    simp [AllSplits, WriteBeforeThread]
  · rw [ht]
    refine allSplits_append _ _ _ hlocator _ ?_
    simp [AllSplits, WriteBeforeThread]
  · rw [ht]
    refine allSplits_append _ _ _ hlocator _ ?_
    simp [AllSplits, WriteBeforeThread]
  · rw [ht]
    rw [toBOOL_eq_true_iff] at h5
    subst h5
    refine allSplits_append _ _ _ hlocator _ ?_
    simp only [AllSplits, WriteBeforeThread, reduceCtorEq, false_imp_iff, implies_true,
      true_and, and_true, Event.CreateRemoteThread.injEq]
    rintro _ _ _ _ _ ⟨rfl, rfl, rfl, rfl, rfl⟩
    refine ⟨⟨src, n, by simp⟩, ⟨kernel32, by simp⟩, ⟨0, n, MEM_COMMIT ||| MEM_RESERVE, PAGE_READWRITE, by simp⟩, ?_⟩
    simp [Event.isWrite]
  · rw [ht]
    rw [toBOOL_eq_true_iff] at h5
    subst h5
    refine allSplits_append _ _ _ hlocator _ ?_
    simp only [AllSplits, WriteBeforeThread, reduceCtorEq, false_imp_iff, implies_true,
      true_and, and_true, Event.CreateRemoteThread.injEq]
    rintro _ _ _ _ _ ⟨rfl, rfl, rfl, rfl, rfl⟩
    refine ⟨⟨src, n, by simp⟩, ⟨kernel32, by simp⟩, ⟨0, n, MEM_COMMIT ||| MEM_RESERVE, PAGE_READWRITE, by simp⟩, ?_⟩
    simp [Event.isWrite]

theorem inject_dll_writes (w : World) (dll_path : List wchar_t) :
    ((inject_dll w dll_path).trace.filter Event.isWrite).length ≤ 1 ∧
      (∀ process addr size type protect buffer,
        Event.VirtualAllocEx process addr size type protect buffer
          ∈ (inject_dll w dll_path).trace → buffer ≠ 0 →
        ∃ bytes n wr, (inject_dll w dll_path).trace.filter Event.isWrite
          = [Event.WriteProcessMemory process buffer bytes n wr]) := by
  have hq := find_process_id_events_quiet w (c_literal "RocketLeague.exe")
  have hn := not_mem_find_process_id w (c_literal "RocketLeague.exe")
  have hfilter : (find_process_id w (c_literal "RocketLeague.exe")).2.filter Event.isWrite
      = [] := by
    rw [List.filter_eq_nil_iff]
    intro e he
    simp [(hq e he).2.2]
  clear hq
  obtain ⟨process', kernel32, loader, buffer', wr, thread', got, hp⟩ :=
    inject_dll_paths w dll_path
  generalize (wide_bytes (c_str dll_path)).take
    (((dll_path.length + 1) * sizeof_wchar_t) % SIZE_MOD) = src at hp
  generalize ((dll_path.length + 1) * sizeof_wchar_t) % SIZE_MOD = n at hp
  rcases hp with ⟨_, _, ht⟩ | ⟨_, _, _, ht⟩ | ⟨_, _, _, _, ht⟩ | ⟨_, _, _, h4, _, ht⟩ |
    ⟨_, _, _, _, _, _, _, ht⟩ | ⟨_, _, _, _, _, _, _, _, ht⟩ |
    ⟨_, _, _, _, _, _, _, _, ht⟩
  · rw [ht]
    refine ⟨by simp [List.filter_append, hfilter, List.filter_cons, Event.isWrite], ?_⟩
    intro process addr size type protect buffer hmem
    simp [hn, Event.stage] at hmem
  · rw [ht]
    refine ⟨by simp [List.filter_append, hfilter, List.filter_cons, Event.isWrite], ?_⟩
    intro process addr size type protect buffer hmem
    simp [hn, Event.stage] at hmem
  · rw [ht]
    refine ⟨by simp [List.filter_append, hfilter, List.filter_cons, Event.isWrite], ?_⟩
    intro process addr size type protect buffer hmem
    simp [hn, Event.stage] at hmem
  · rw [ht]
    refine ⟨by simp [List.filter_append, hfilter, List.filter_cons, Event.isWrite], ?_⟩
    intro process addr size type protect buffer hmem hnull
    simp [hn, Event.stage] at hmem
    exact absurd (hmem.2.2.2.2.2.trans h4) hnull
  all_goals
    rw [ht]
    refine ⟨by simp [List.filter_append, hfilter, List.filter_cons, Event.isWrite], ?_⟩
    intro process addr size type protect buffer hmem _
    simp [hn, Event.stage] at hmem
    obtain ⟨rfl, rfl, rfl, rfl, rfl, rfl⟩ := hmem
    exact ⟨src, size, wr,
      by simp [List.filter_append, hfilter, List.filter_cons, Event.isWrite]⟩

/-- C10: in every run of `inject_dll`, a `CreateRemoteThread` call is preceded
by a `WriteProcessMemory` call into the thread's argument that copied the
whole range, by the `GetProcAddress` call for `LoadLibraryW` that returned
the thread's start routine and by the `VirtualAllocEx` call that returned
the thread's argument, and is followed by no write; the trace holds at most
one write, and exactly one, into the buffer, whenever a buffer was
allocated. -/
theorem inject_dll_write_then_execute (w : World) (dll_path : List wchar_t) :
    (∀ pre post process start param flags thread,
        (inject_dll w dll_path).trace
          = pre ++ Event.CreateRemoteThread process start param flags thread :: post →
        (∃ bytes size,
            Event.WriteProcessMemory process param bytes size .complete ∈ pre) ∧
          (∃ hmodule, Event.GetProcAddress hmodule (c_literal "LoadLibraryW") start ∈ pre) ∧
          (∃ addr size type protect,
            Event.VirtualAllocEx process addr size type protect param ∈ pre) ∧
          (∀ x ∈ post, x.isWrite = false)) ∧
      ((inject_dll w dll_path).trace.filter Event.isWrite).length ≤ 1 ∧
      (∀ process addr size type protect buffer,
        Event.VirtualAllocEx process addr size type protect buffer
          ∈ (inject_dll w dll_path).trace → buffer ≠ 0 →
        ∃ bytes n wr, (inject_dll w dll_path).trace.filter Event.isWrite
          = [Event.WriteProcessMemory process buffer bytes n wr]) := by
  refine ⟨?_, inject_dll_writes w dll_path⟩
  intro pre post process start param flags thread hsplit
  exact allSplits_nil WriteBeforeThread _ (inject_dll_thread_positions w dll_path) pre _ post
    hsplit process start param flags thread rfl

/-! ## Claims about the whole program -/

/-- C7: when the payload exists and `find_process_id` returns 0, the program
exits with code 2 and makes no call of any injection stage: no process is
opened, no remote memory is allocated, no remote thread is created.  The
only resource ever acquired is the locator's own snapshot handle, and once
`find_process_id` has returned the only call made is the message box. -/
theorem main_process_absent (w : World)
    (hexists : w.fs_exists (payload_path w) = some true)
    (habsent : (find_process_id w (c_literal "RocketLeague.exe")).1 = 0) :
    (main w).ret = some 2 ∧
      (∀ e ∈ (main w).trace, e.stage = none) ∧
      (∀ e ∈ (main w).trace, ∀ r, e.acquires = some r →
        r = Resource.handle (w.CreateToolhelp32Snapshot TH32CS_SNAPPROCESS 0)) ∧
      (main w).trace = (get_app_data w).2 ++
        Event.fs_exists (payload_path w) (some true) ::
          ((find_process_id w (c_literal "RocketLeague.exe")).2 ++
            [Event.MessageBoxA "rocket League process not found." "error"
              (MB_OK ||| MB_ICONERROR)]) := by
  have hq := find_process_id_events w (c_literal "RocketLeague.exe")
  have ha := get_app_data_events w
  obtain ⟨hr, ht⟩ := inject_dll_not_located w (payload_path w) habsent
  have hmain : (main w).ret = some 2 ∧ (main w).trace = (get_app_data w).2 ++
      [Event.fs_exists (payload_path w) (some true)] ++
      ((find_process_id w (c_literal "RocketLeague.exe")).2 ++
        [Event.MessageBoxA "rocket League process not found." "error"
          (MB_OK ||| MB_ICONERROR)]) := by
    simp [main, hexists, hr, ht, exit_code.toInt]
  refine ⟨hmain.1, ?_, ?_, by simp [hmain.2]⟩
  · intro e he
    rw [hmain.2] at he
    simp only [List.mem_append, List.mem_singleton] at he
    rcases he with (he | rfl) | he | rfl
    · exact (ha e he).1
    · rfl
    · exact (find_process_id_events_quiet w _ e he).1
    · rfl
  · intro e he r hacq
    rw [hmain.2] at he
    simp only [List.mem_append, List.mem_singleton] at he
    rcases he with (he | rfl) | he | rfl
    · rw [(ha e he).2.2] at hacq
      cases hacq
    · simp [Event.acquires] at hacq
    · rcases hq e he with hl | rfl
      · cases e <;> simp_all [Event.locates, Event.acquires]
        rcases find_process_id_trace w (c_literal "RocketLeague.exe") with
          ⟨hs, ht'⟩ | ⟨_, mid, ht', hall⟩
        · rw [ht'] at he
          simp at he
          exact absurd he.2.2 hacq.1
        · rw [ht'] at he
          simp only [List.mem_cons, List.mem_append, List.mem_singleton, List.not_mem_nil,
            or_false] at he
          rcases he with he | he | he
          · simp at he
            rw [← hacq.2, he.2.2]
          · have := hall _ he
            simp [Event.enumerates] at this
          · simp at he
      · simp [Event.acquires] at hacq
    · simp [Event.acquires] at hacq

/-- Witness for C7: the payload exists and the process table has no
`RocketLeague.exe`. -/
theorem main_process_absent_witness :
    (main (mock no_game (some true) 9 2000 3000 .complete 11 (some 1))).ret = some 2 ∧
      ∀ e ∈ (main (mock no_game (some true) 9 2000 3000 .complete 11 (some 1))).trace,
        e.stage = none :=
  ⟨(main_process_absent (mock no_game (some true) 9 2000 3000 .complete 11 (some 1))
      rfl (by decide)).1,
    (main_process_absent (mock no_game (some true) 9 2000 3000 .complete 11 (some 1))
      rfl (by decide)).2.1⟩

/-- C8: when the payload path does not exist, the program exits with code 1
and makes neither a locator call (no snapshot, no enumeration) nor a call
of any injection stage. -/
theorem main_payload_missing (w : World)
    (hmissing : w.fs_exists (payload_path w) = some false) :
    (main w).ret = some 1 ∧
      (∀ e ∈ (main w).trace, e.locates = false ∧ e.stage = none) ∧
      (main w).trace = (get_app_data w).2 ++
        [Event.fs_exists (payload_path w) (some false),
          Event.MessageBoxA "could not find bakkesmod.dll..." "DLL nt found"
            (MB_OK ||| MB_ICONERROR)] := by
  have ha := get_app_data_events w
  have hmain : (main w).ret = some 1 ∧ (main w).trace = (get_app_data w).2 ++
      [Event.fs_exists (payload_path w) (some false)] ++
      [Event.MessageBoxA "could not find bakkesmod.dll..." "DLL nt found"
        (MB_OK ||| MB_ICONERROR)] := by
    simp [main, hmissing, exit_code.toInt, show_msgbox]
  refine ⟨hmain.1, ?_, by simp [hmain.2]⟩
  intro e he
  rw [hmain.2] at he
  simp only [List.mem_append, List.mem_singleton] at he
  rcases he with (he | rfl) | rfl
  · exact ⟨(ha e he).2.1, (ha e he).1⟩
  · exact ⟨rfl, rfl⟩
  · exact ⟨rfl, rfl⟩

/-- Witness for C8: the payload is missing while the game is running. -/
theorem main_payload_missing_witness :
    (main (mock two_games (some false) 9 2000 3000 .complete 11 (some 1))).ret = some 1 ∧
      ∀ e ∈ (main (mock two_games (some false) 9 2000 3000 .complete 11 (some 1))).trace,
        e.locates = false ∧ e.stage = none :=
  ⟨(main_payload_missing (mock two_games (some false) 9 2000 3000 .complete 11 (some 1))
      rfl).1,
    (main_payload_missing (mock two_games (some false) 9 2000 3000 .complete 11 (some 1))
      rfl).2.1⟩

end Injector
